import Mathlib

/-!
Shallow embedding of `update_dns_records.py` (gcp-dns-multi-tool).

The script reconciles desired DNS records against managed zones across
projects.  Pure data and control flow are translated directly; the external
google-cloud-dns SDK is modelled by an environment (`ProjectEnv`) that fixes,
per project, the answers of the three network operations the script performs:
`zone_obj.exists()`, `zone_obj.list_resource_record_sets()`, and
`changes.create()`.  Every observable action of the script (printed line or
network call) is recorded as an `Event`, in program order.

SDK behaviour that the translation relies on (google-cloud-dns):
`zone_obj.changes()` constructs a `Changes` object with an empty additions
list; `add_record_set` appends to that list; `create()` submits the current
additions list as one change transaction and, on success, repopulates the
object from the API response, which echoes the additions back — so the
additions list is never emptied by `create()`.  A failed `create()` leaves the
additions untouched.  The script constructs one `Changes` object per project
(line 29) and calls `add_record_set`/`create` once per absent record inside
the record loop (lines 46-47), so the additions list threads through the loop.
-/

/-- One desired DNS record, as a dict in the `dns_records` list of the YAML
config: keys `name`, `type`, `ttl`, `rrdatas` (script lines 11-15). -/
structure RecordSpec where
  name : String
  type : String
  ttl : Int
  rrdatas : List String
  deriving DecidableEq

/-- A record set of the zone, as returned by `list_resource_record_sets` or
built by `zone_obj.resource_record_set`; the script reads `name` and
`record_type` for the existence check (line 35). -/
structure ResourceRecordSet where
  name : String
  record_type : String
  ttl : Int
  rrdatas : List String
  deriving DecidableEq

/-- `zone_obj.resource_record_set(record['name'], record['type'],
record['ttl'], record['rrdatas'])` — line 43-45. -/
def resource_record_set (r : RecordSpec) : ResourceRecordSet :=
  { name := r.name, record_type := r.type, ttl := r.ttl, rrdatas := r.rrdatas }

/-- Outcome of one `changes.create()` call: success, a
`google.api_core.exceptions.Conflict`, or any other exception. -/
inductive CreateOutcome where
  | ok : CreateOutcome
  | conflict (msg : String) : CreateOutcome
  | raise (msg : String) : CreateOutcome
  deriving DecidableEq

/-- Behaviour of the DNS service for one project: the result of the zone
existence check, of the record-set listing, and of the n-th `create()` call in
that project (`Except.error` models the call raising an exception). -/
structure ProjectEnv where
  existsResult : Except String Bool
  listResult : Except String (List ResourceRecordSet)
  createResult : Nat → CreateOutcome

/-- Observable actions of the script, in program order: printed lines and the
three kinds of network call.  `createCall` carries the full additions list of
the submitted change transaction. -/
inductive Event where
  | log (line : String) : Event
  | existsCall (project zoneName : String) : Event
  | listCall (project zoneName : String) : Event
  | createCall (project zoneName : String) (additions : List ResourceRecordSet) : Event
  deriving DecidableEq

/-- True exactly for change-transaction submissions (the only mutating calls
the script makes). -/
def Event.isCreate : Event → Bool
  | Event.createCall _ _ _ => true
  | _ => false

/-- True exactly for record-set listing calls. -/
def Event.isList : Event → Bool
  | Event.listCall _ _ => true
  | _ => false

/-- The additions lists of the change transactions submitted in a trace, in
order of submission. -/
def createCalls : List Event → List (List ResourceRecordSet)
  | [] => []
  | Event.createCall _ _ adds :: rest => adds :: createCalls rest
  | _ :: rest => createCalls rest

/-- Line 34-36: `any(r.name == record['name'] and r.record_type ==
record['type'] for r in existing_records)` — exact string equality on name
and type, nothing else compared. -/
def recordExists (existing : List ResourceRecordSet) (record : RecordSpec) : Bool :=
  existing.any (fun r => r.name == record.name && r.record_type == record.type)

/-- Lines 32-50, the per-record loop.  State threaded through: `additions`,
the additions list of the single per-project `Changes` object, and `n`, the
number of `create()` calls made so far in this project.  Returns the events of
the loop and, if a `create()` raised a non-Conflict exception, that exception
(which escapes to the per-project `except` of line 52). -/
def recordLoop (env : ProjectEnv) (project zoneName : String)
    (existing : List ResourceRecordSet) :
    List RecordSpec → List ResourceRecordSet → Nat → List Event × Option String
  | [], _, _ => ([], none)
  | record :: rest, additions, n =>
    if recordExists existing record then
      let res := recordLoop env project zoneName existing rest additions n
      (Event.log ("Record " ++ record.name ++ " already exists in zone " ++ zoneName ++ ".") ::
        res.1, res.2)
    else
      let additions2 := additions ++ [resource_record_set record]
      match env.createResult n with
      | CreateOutcome.ok =>
        let res := recordLoop env project zoneName existing rest additions2 (n + 1)
        (Event.createCall project zoneName additions2 ::
          Event.log ("Added record " ++ record.name ++ " to zone " ++ zoneName ++ ".") ::
          res.1, res.2)
      | CreateOutcome.conflict msg =>
        let res := recordLoop env project zoneName existing rest additions2 (n + 1)
        (Event.createCall project zoneName additions2 ::
          Event.log ("Conflict error: " ++ msg ++ ". Skipping record " ++ record.name ++ ".") ::
          res.1, res.2)
      | CreateOutcome.raise msg =>
        ([Event.createCall project zoneName additions2], some msg)

/-- Lines 21-50, the body of the per-project `try`: zone existence check, the
skip when the zone is absent, record-set listing, then the record loop.
Returns the events and, if an exception escaped the body, its message.
(`dns.Client(...)`, `client.zone(...)` and `zone_obj.changes()` construct
local objects and make no network call, so they produce no event and are
modelled as non-failing.) -/
def processProjectBody (env : ProjectEnv) (project : String)
    (dns_records : List RecordSpec) (zoneName : String) : List Event × Option String :=
  match env.existsResult with
  | Except.error e => ([Event.existsCall project zoneName], some e)
  | Except.ok false =>
    ([Event.existsCall project zoneName,
      Event.log ("Zone " ++ zoneName ++ " does not exist in project " ++ project ++ ".")], none)
  | Except.ok true =>
    match env.listResult with
    | Except.error e =>
      ([Event.existsCall project zoneName, Event.listCall project zoneName], some e)
    | Except.ok existing =>
      let res := recordLoop env project zoneName existing dns_records [] 0
      (Event.existsCall project zoneName :: Event.listCall project zoneName :: res.1, res.2)

/-- Lines 18-53 for one project: the "Processing project" line, the `try`
body, and the `except Exception` handler of line 52 that logs the escaped
exception with the project identifier. -/
def processProject (env : ProjectEnv) (project : String)
    (dns_records : List RecordSpec) (zoneName : String) : List Event :=
  Event.log ("Processing project: " ++ project) ::
    ((processProjectBody env project dns_records zoneName).1 ++
      (match (processProjectBody env project dns_records zoneName).2 with
       | some e => [Event.log ("Error processing project " ++ project ++ ": " ++ e)]
       | none => []))

/-- Lines 5-53, `update_dns_records(projects, dns_records, zone)`: the
sequential loop over projects.  `env` gives the service behaviour per project
identifier. -/
def update_dns_records (env : String → ProjectEnv) (projects : List String)
    (dns_records : List RecordSpec) (zoneName : String) : List Event :=
  match projects with
  | [] => []
  | p :: rest =>
    processProject (env p) p dns_records zoneName ++
      update_dns_records env rest dns_records zoneName

/-- Result of `open(file_path)` followed by `yaml.safe_load(file)`, restricted
to the shapes the script ever inspects: the load may raise (unreadable file or
malformed YAML), may yield a null document (empty file — Python `None`), or
may yield a mapping in which each of the three keys the script reads is
present or absent. -/
inductive ParsedYaml where
  | nullDoc : ParsedYaml
  | mapping (projects : Option (List String)) (dns_records : Option (List RecordSpec))
      (zone : Option String) : ParsedYaml
  deriving DecidableEq

/-- The Python exceptions the top level can see from config loading. -/
inductive PyError where
  | yamlOrReadError (msg : String) : PyError
  | attributeError (msg : String) : PyError
  deriving DecidableEq

/-- The message the exception prints (what `except Exception as e: print(e)`
interpolates). -/
def PyError.message : PyError → String
  | PyError.yamlOrReadError m => m
  | PyError.attributeError m => m

/-- Lines 55-67, `load_config_from_yaml`: propagates a read / parse failure;
on a null document, `config.get` raises `AttributeError` (`None` has no
attribute `get`); on a mapping, returns
`(config.get('projects', []), config.get('dns_records', []),
config.get('zone', None))`. -/
def load_config_from_yaml (parsed : Except String ParsedYaml) :
    Except PyError (List String × List RecordSpec × Option String) :=
  match parsed with
  | Except.error e => Except.error (PyError.yamlOrReadError e)
  | Except.ok ParsedYaml.nullDoc =>
    Except.error (PyError.attributeError ("NoneType object has no attribute get"))
  | Except.ok (ParsedYaml.mapping ps rs z) => Except.ok (ps.getD [], rs.getD [], z)

/-- Process exit status and full event trace of one run. -/
structure MainResult where
  exitCode : Nat
  events : List Event
  deriving DecidableEq

/-- Lines 69-84, the `__main__` block: usage check (`len(sys.argv) != 2` →
usage line, `sys.exit(1)`); then `load_config_from_yaml`, the `if not zone`
check (Python falsiness: `None` or empty string) raising `ValueError`, and
`update_dns_records` — all inside `try ... except Exception` which prints
"Error loading configuration: ..." and falls off the end of the script, so the
process exits 0 on every path except the usage error. -/
def main_entry (argv : List String) (parsed : Except String ParsedYaml)
    (env : String → ProjectEnv) : MainResult :=
  if argv.length ≠ 2 then
    { exitCode := 1,
      events := [Event.log ("Usage: python update_dns_records.py <config_file.yaml>")] }
  else
    match load_config_from_yaml parsed with
    | Except.error e =>
      { exitCode := 0,
        events := [Event.log ("Error loading configuration: " ++ e.message)] }
    | Except.ok (projects, dns_records, zoneOpt) =>
      match zoneOpt with
      | none =>
        { exitCode := 0,
          events := [Event.log ("Error loading configuration: Zone must be specified in the configuration file.")] }
      | some z =>
        if z == "" then
          { exitCode := 0,
            events := [Event.log ("Error loading configuration: Zone must be specified in the configuration file.")] }
        else
          { exitCode := 0, events := update_dns_records env projects dns_records z }

/-- Desired record of the spec's concrete scenario: a.x. / A / 300 / [1.1.1.1]. -/
def rA : RecordSpec :=
  { name := "a.x.", type := "A", ttl := 300, rrdatas := ["1.1.1.1"] }

/-- A second desired record with a distinct (name, type) pair. -/
def rB : RecordSpec :=
  { name := "b.x.", type := "A", ttl := 300, rrdatas := ["2.2.2.2"] }

/-- An existing record set matching `rA` on name and type. -/
def erA : ResourceRecordSet :=
  { name := "a.x.", record_type := "A", ttl := 300, rrdatas := ["1.1.1.1"] }

/-- Service behaviour: zone exists everywhere, empty snapshot, every create
succeeds. -/
def envOkEmpty : String → ProjectEnv := fun _ =>
  { existsResult := Except.ok true, listResult := Except.ok [],
    createResult := fun _ => CreateOutcome.ok }

/-- Service behaviour: zone exists, snapshot already holds `erA`, every create
succeeds. -/
def envOneExisting : String → ProjectEnv := fun _ =>
  { existsResult := Except.ok true, listResult := Except.ok [erA],
    createResult := fun _ => CreateOutcome.ok }

/-- Service behaviour: zone exists, empty snapshot, every create reports a
Conflict. -/
def envConflict : ProjectEnv :=
  { existsResult := Except.ok true, listResult := Except.ok [],
    createResult := fun _ => CreateOutcome.conflict ("409 already exists") }

/-- Service behaviour: project A fails at the zone existence check, every
other project succeeds with an empty snapshot. -/
def envFailA : String → ProjectEnv := fun p =>
  if p == "A" then
    { existsResult := Except.error ("boom"), listResult := Except.ok [],
      createResult := fun _ => CreateOutcome.ok }
  else
    { existsResult := Except.ok true, listResult := Except.ok [],
      createResult := fun _ => CreateOutcome.ok }

/-- Service behaviour: the zone does not exist in this project. -/
def envNoZone : ProjectEnv :=
  { existsResult := Except.ok false, listResult := Except.ok [],
    createResult := fun _ => CreateOutcome.ok }

theorem createCalls_log (s : String) (l : List Event) :
    createCalls (Event.log s :: l) = createCalls l := rfl

theorem createCalls_existsCall (p z : String) (l : List Event) :
    createCalls (Event.existsCall p z :: l) = createCalls l := rfl

theorem createCalls_listCall (p z : String) (l : List Event) :
    createCalls (Event.listCall p z :: l) = createCalls l := rfl

theorem createCalls_createCall (p z : String) (adds : List ResourceRecordSet)
    (l : List Event) :
    createCalls (Event.createCall p z adds :: l) = adds :: createCalls l := rfl

theorem createCalls_append (a b : List Event) :
    createCalls (a ++ b) = createCalls a ++ createCalls b := by
  induction a with
  | nil => rfl
  | cons x xs ih =>
    cases x <;>
      simp [List.cons_append, createCalls_log, createCalls_existsCall,
        createCalls_listCall, createCalls_createCall, ih]

/-- If every desired record matches the snapshot, the record loop submits no
change transaction, whatever state the Changes object is in. -/
theorem recordLoop_createCalls_nil (env : ProjectEnv) (project zoneName : String)
    (existing : List ResourceRecordSet) (records : List RecordSpec) :
    ∀ (additions : List ResourceRecordSet) (n : Nat),
      (∀ r, r ∈ records → recordExists existing r = true) →
      createCalls (recordLoop env project zoneName existing records additions n).1 = [] := by
  induction records with
  | nil => intro additions n _; rfl
  | cons record rest ih =>
    intro additions n h
    have hr : recordExists existing record = true :=
      h record (List.mem_cons_self record rest)
    simp only [recordLoop, hr, if_true, createCalls_log]
    exact ih additions n (fun r hm => h r (List.mem_cons_of_mem record hm))

/-- If every desired record matches the project's snapshot, processing the
project submits no change transaction. -/
theorem processProject_createCalls_nil (env : ProjectEnv) (project zoneName : String)
    (records : List RecordSpec)
    (h : ∀ l, env.listResult = Except.ok l → ∀ r, r ∈ records → recordExists l r = true) :
    createCalls (processProject env project records zoneName) = [] := by
  simp only [processProject, processProjectBody]
  cases he : env.existsResult with
  | error e => simp [createCalls_append, createCalls_log, createCalls_existsCall, createCalls]
  | ok b =>
    cases b with
    | false => simp [createCalls_append, createCalls_log, createCalls_existsCall, createCalls]
    | true =>
      cases hl : env.listResult with
      | error e =>
        simp [createCalls_append, createCalls_log, createCalls_existsCall,
          createCalls_listCall, createCalls]
      | ok existing =>
        have hnil :=
          recordLoop_createCalls_nil env project zoneName existing records [] 0 (h existing hl)
        cases hres : (recordLoop env project zoneName existing records [] 0).2 with
        | none =>
          simp [createCalls_append, createCalls_log, createCalls_existsCall,
            createCalls_listCall, hnil, createCalls]
        | some e =>
          simp [createCalls_append, createCalls_log, createCalls_existsCall,
            createCalls_listCall, hnil, createCalls, createCalls_append]

/-- If, in every project, every desired record matches that project's
snapshot, the whole run submits no change transaction. -/
theorem update_createCalls_nil (env2 : String → ProjectEnv) (projects : List String)
    (records : List RecordSpec) (zoneName : String) :
    (∀ p, p ∈ projects → ∀ l, (env2 p).listResult = Except.ok l →
      ∀ r, r ∈ records → recordExists l r = true) →
    createCalls (update_dns_records env2 projects records zoneName) = [] := by
  induction projects with
  | nil => intro _; rfl
  | cons p rest ih =>
    intro h
    simp only [update_dns_records, createCalls_append]
    rw [processProject_createCalls_nil (env2 p) p zoneName records
        (h p (List.mem_cons_self p rest)),
      ih (fun q hq => h q (List.mem_cons_of_mem p hq))]
    rfl

/-- The record loop submits one change transaction per desired record absent
from the snapshot (the snapshot is fixed for the whole loop), as long as no
create raises a non-Conflict exception. -/
theorem recordLoop_create_count (env : ProjectEnv) (project zoneName : String)
    (existing : List ResourceRecordSet) (records : List RecordSpec)
    (h : ∀ m msg, env.createResult m ≠ CreateOutcome.raise msg) :
    ∀ (additions : List ResourceRecordSet) (n : Nat),
      (createCalls (recordLoop env project zoneName existing records additions n).1).length =
        (records.filter (fun r => !recordExists existing r)).length := by
  induction records with
  | nil => intro additions n; rfl
  | cons record rest ih =>
    intro additions n
    cases hr : recordExists existing record with
    | true =>
      simp [recordLoop, hr, createCalls_log, List.filter_cons, ih]
    | false =>
      cases hc : env.createResult n with
      | ok =>
        simp [recordLoop, hr, hc, createCalls_createCall, createCalls_log,
          List.filter_cons, ih]
      | conflict msg =>
        simp [recordLoop, hr, hc, createCalls_createCall, createCalls_log,
          List.filter_cons, ih]
      | raise msg => exact absurd hc (h n msg)

/-- C1: the claim states that for every desired record whose (name, type)
pair matches no record in the project's snapshot, exactly one
change-transaction is submitted containing exactly that one record and no
other.  The code violates this: the `Changes` object is created once per
project (line 29) and reused across loop iterations, so with two absent
records the second `create()` submits a transaction containing both records.
This theorem evaluates the embedded code at that failing input: one project,
empty snapshot, two absent records — the second submitted transaction holds
two records, not one. -/
theorem C1_second_transaction_contains_two_records :
    createCalls (update_dns_records envOkEmpty [("p1")] [rA, rB] ("z1")) =
      [[resource_record_set rA], [resource_record_set rA, resource_record_set rB]] := by
  rfl

/-- C2: for every desired record matched by some existing record on name and
type (exact string equality, nothing else compared), no creation call is
issued for that record — its loop step only logs "already exists" and leaves
the Changes state untouched; consequently a run in which every project's
snapshot already contains every desired record submits zero mutating calls
(re-running against a reconciled zone is idempotent). -/
theorem C2_match_skipped_and_rerun_idempotent (env : ProjectEnv)
    (project zoneName : String) (existing : List ResourceRecordSet)
    (r : RecordSpec) (rest : List RecordSpec) (additions : List ResourceRecordSet)
    (n : Nat) (hex : recordExists existing r = true) :
    recordLoop env project zoneName existing (r :: rest) additions n =
      (Event.log ("Record " ++ r.name ++ " already exists in zone " ++ zoneName ++ ".") ::
        (recordLoop env project zoneName existing rest additions n).1,
       (recordLoop env project zoneName existing rest additions n).2)
    ∧ ∀ (env2 : String → ProjectEnv) (projects : List String) (records : List RecordSpec),
        (∀ p, p ∈ projects → ∀ l, (env2 p).listResult = Except.ok l →
          ∀ r2, r2 ∈ records → recordExists l r2 = true) →
        createCalls (update_dns_records env2 projects records zoneName) = [] := by
  constructor
  · simp [recordLoop, hex]
  · intro env2 projects records h
    exact update_createCalls_nil env2 projects records zoneName h

/-- C2 witness: concrete run — snapshot already holds the one desired record,
so the trace contains no change-transaction submission. -/
theorem C2_match_skipped_witness :
    recordExists [erA] rA = true ∧
    createCalls (update_dns_records envOneExisting [("p1")] [rA] ("z1")) = [] := by
  refine ⟨by decide, ?_⟩
  exact (C2_match_skipped_and_rerun_idempotent (envOneExisting ("p1")) ("p1") ("z1")
      [erA] rA [] [] 0 (by decide)).2 envOneExisting [("p1")] [rA]
    (fun p hp l hl r2 hr2 => by
      have hl2 : [erA] = l := Except.ok.inj hl
      have hr3 : r2 = rA := List.mem_singleton.mp hr2
      subst hl2; subst hr3; decide)

/-- C3: when the service reports a Conflict for a record-creation submission,
the Conflict is caught specifically and logged, only that record is skipped,
and the loop continues with the remaining records exactly as it would have;
moreover the run always proceeds to all subsequent projects (the per-project
traces concatenate unconditionally). -/
theorem C3_conflict_logged_and_continues (env : ProjectEnv)
    (project zoneName : String) (existing : List ResourceRecordSet)
    (r : RecordSpec) (rest : List RecordSpec) (additions : List ResourceRecordSet)
    (n : Nat) (msg : String) (habs : recordExists existing r = false)
    (hc : env.createResult n = CreateOutcome.conflict msg) :
    recordLoop env project zoneName existing (r :: rest) additions n =
      (Event.createCall project zoneName (additions ++ [resource_record_set r]) ::
        Event.log ("Conflict error: " ++ msg ++ ". Skipping record " ++ r.name ++ ".") ::
        (recordLoop env project zoneName existing rest
          (additions ++ [resource_record_set r]) (n + 1)).1,
       (recordLoop env project zoneName existing rest
          (additions ++ [resource_record_set r]) (n + 1)).2)
    ∧ ∀ (env2 : String → ProjectEnv) (p : String) (ps : List String)
        (recs : List RecordSpec) (z : String),
        update_dns_records env2 (p :: ps) recs z =
          processProject (env2 p) p recs z ++ update_dns_records env2 ps recs z := by
  constructor
  · simp [recordLoop, habs, hc]
  · intro env2 p ps recs z; rfl

/-- C3 witness: concrete conflict on the single absent record — the call is
made, the conflict is logged, and the loop continues (here: with no further
records). -/
theorem C3_conflict_witness :
    recordLoop envConflict ("p1") ("z1") [] [rA] [] 0 =
      (Event.createCall ("p1") ("z1") ([] ++ [resource_record_set rA]) ::
        Event.log ("Conflict error: " ++ "409 already exists" ++ ". Skipping record " ++
          rA.name ++ ".") ::
        (recordLoop envConflict ("p1") ("z1") [] []
          ([] ++ [resource_record_set rA]) (0 + 1)).1,
       (recordLoop envConflict ("p1") ("z1") [] []
          ([] ++ [resource_record_set rA]) (0 + 1)).2) :=
  (C3_conflict_logged_and_continues envConflict ("p1") ("z1") [] rA [] [] 0
      ("409 already exists") (by decide) rfl).1

/-- C4: any exception that escapes the body of one project's processing is
caught by the per-project handler and logged with that project's identifier,
and every subsequent project is still processed — with projects = A :: ps the
trace is A's trace (ending in the error line) followed by the full trace of
ps. -/
theorem C4_failure_isolated (env : String → ProjectEnv) (A : String)
    (ps : List String) (records : List RecordSpec) (zoneName : String) (e : String)
    (h : (processProjectBody (env A) A records zoneName).2 = some e) :
    update_dns_records env (A :: ps) records zoneName =
      (Event.log ("Processing project: " ++ A) ::
        ((processProjectBody (env A) A records zoneName).1 ++
          [Event.log ("Error processing project " ++ A ++ ": " ++ e)])) ++
        update_dns_records env ps records zoneName := by
  simp [update_dns_records, processProject, h]

/-- C4 witness: projects = [A, B], A's zone-existence check raises — the error
is logged for A and B is still fully processed. -/
theorem C4_failure_isolated_witness :
    update_dns_records envFailA [("A"), ("B")] [rA] ("z1") =
      (Event.log ("Processing project: " ++ "A") ::
        ((processProjectBody (envFailA ("A")) ("A") [rA] ("z1")).1 ++
          [Event.log ("Error processing project " ++ "A" ++ ": " ++ "boom")])) ++
        update_dns_records envFailA [("B")] [rA] ("z1") :=
  C4_failure_isolated envFailA ("A") [("B")] [rA] ("z1") ("boom") rfl

/-- C5: when the named zone does not exist in a project, the trace for that
project is exactly the processing line, the existence check, and the
non-existence log — no error line, no record-set listing call and no
record-creation call. -/
theorem C5_zone_absent_no_calls (env : ProjectEnv) (project zoneName : String)
    (records : List RecordSpec) (h : env.existsResult = Except.ok false) :
    processProject env project records zoneName =
      [Event.log ("Processing project: " ++ project),
       Event.existsCall project zoneName,
       Event.log ("Zone " ++ zoneName ++ " does not exist in project " ++ project ++ ".")]
    ∧ createCalls (processProject env project records zoneName) = []
    ∧ (processProject env project records zoneName).filter Event.isList = [] := by
  refine ⟨?_, ?_, ?_⟩ <;>
    simp [processProject, processProjectBody, h, createCalls, Event.isList, List.filter]

/-- C5 witness: concrete project where the zone is absent. -/
theorem C5_zone_absent_witness :
    processProject envNoZone ("p1") [rA] ("z1") =
      [Event.log ("Processing project: " ++ "p1"),
       Event.existsCall ("p1") ("z1"),
       Event.log ("Zone " ++ "z1" ++ " does not exist in project " ++ "p1" ++ ".")]
    ∧ createCalls (processProject envNoZone ("p1") [rA] ("z1")) = []
    ∧ (processProject envNoZone ("p1") [rA] ("z1")).filter Event.isList = [] :=
  C5_zone_absent_no_calls envNoZone ("p1") ("z1") [rA] rfl

/-- C6 counterexample: the claim states that a malformed-YAML or unreadable
config makes the process exit with a NON-ZERO status.  On the embedded code
the top-level handler prints the error and the script then falls off the end,
so the exit status at this concrete malformed-YAML input is 0. -/
theorem C6_malformed_yaml_exits_zero :
    (main_entry [("update_dns_records.py"), ("config.yaml")]
        (Except.error ("while parsing a block mapping: did not find expected key"))
        envOkEmpty).exitCode = 0 := by
  rfl

/-- C6 amended: for every config file that is malformed YAML or unreadable,
the loader failure propagates to the top-level caller, which reports it as a
configuration-loading error — and the process then exits with status 0 (only
the usage-error path exits non-zero). -/
theorem C6_amended_reported_and_exit_zero (prog cfg e : String)
    (env : String → ProjectEnv) :
    main_entry [prog, cfg] (Except.error e) env =
      { exitCode := 0,
        events := [Event.log ("Error loading configuration: " ++ e)] } := by
  rfl

/-- C7: for every config whose projects list is empty (and whose zone is
non-empty so validation passes), the run makes no network call at all — the
event trace is empty — and the process exits normally with status 0. -/
theorem C7_empty_projects_no_calls (prog cfg zoneName : String)
    (records : List RecordSpec) (env : String → ProjectEnv)
    (h : zoneName ≠ "") :
    main_entry [prog, cfg]
        (Except.ok (ParsedYaml.mapping (some []) (some records) (some zoneName))) env =
      { exitCode := 0, events := [] } := by
  have hb : (zoneName == "") = false := beq_eq_false_iff_ne.mpr h
  simp [main_entry, load_config_from_yaml, hb, update_dns_records]

/-- C7 witness: concrete empty-projects config. -/
theorem C7_empty_projects_witness :
    main_entry [("prog"), ("cfg.yaml")]
        (Except.ok (ParsedYaml.mapping (some []) (some [rA]) (some ("z1")))) envOkEmpty =
      { exitCode := 0, events := [] } :=
  C7_empty_projects_no_calls ("prog") ("cfg.yaml") ("z1") [rA] envOkEmpty (by decide)

/-- C8: for every well-formed YAML mapping, the loader returns the tuple
(projects, dns_records, zone) where a missing `projects` or `dns_records` key
defaults to the empty sequence and a missing `zone` key to the absent value;
and an absent or empty zone is rejected by the top level before any network
call — the whole trace is the single configuration-error line. -/
theorem C8_loader_defaults_and_zone_gate (ps : Option (List String))
    (rs : Option (List RecordSpec)) (z : Option String) (prog cfg : String)
    (env : String → ProjectEnv) :
    load_config_from_yaml (Except.ok (ParsedYaml.mapping ps rs z)) =
      Except.ok (ps.getD [], rs.getD [], z)
    ∧ ((z = none ∨ z = some ("")) →
        main_entry [prog, cfg] (Except.ok (ParsedYaml.mapping ps rs z)) env =
          { exitCode := 0,
            events := [Event.log ("Error loading configuration: Zone must be specified in the configuration file.")] }) := by
  constructor
  · rfl
  · rintro (hz | hz) <;> subst hz <;> rfl

/-- C8 witness: mapping with all three keys missing — defaults apply, the
absent zone is rejected, and the trace holds no network event. -/
theorem C8_zone_gate_witness :
    main_entry [("prog"), ("cfg.yaml")]
        (Except.ok (ParsedYaml.mapping none none none)) envOkEmpty =
      { exitCode := 0,
        events := [Event.log ("Error loading configuration: Zone must be specified in the configuration file.")] } :=
  (C8_loader_defaults_and_zone_gate none none none ("prog") ("cfg.yaml") envOkEmpty).2
    (Or.inl rfl)

/-- C9: an empty YAML document parses to a null document, on which the loader
raises an attribute-lookup error (None has no attribute get) instead of
returning the defaulted tuple; the top-level handler catches it and reports it
as a configuration-loading error (and the run performs no network call). -/
theorem C9_null_document_reported (prog cfg : String) (env : String → ProjectEnv) :
    load_config_from_yaml (Except.ok ParsedYaml.nullDoc) =
      Except.error (PyError.attributeError ("NoneType object has no attribute get"))
    ∧ main_entry [prog, cfg] (Except.ok ParsedYaml.nullDoc) env =
      { exitCode := 0,
        events := [Event.log ("Error loading configuration: NoneType object has no attribute get")] } :=
  ⟨rfl, rfl⟩

/-- C10: the existence check runs against the single snapshot fetched before
any creation and the snapshot is never updated during the loop: provided no
create raises a non-Conflict exception, the number of creation submissions
equals the number of desired records absent from that fixed snapshot — and in
particular a desired list holding the same absent (name, type) record twice
gets a creation submission for each of the two occurrences. -/
theorem C10_snapshot_fixed_duplicates_attempted (env : ProjectEnv)
    (project zoneName : String) (existing : List ResourceRecordSet)
    (records : List RecordSpec)
    (h : ∀ m msg, env.createResult m ≠ CreateOutcome.raise msg) :
    (createCalls (recordLoop env project zoneName existing records [] 0).1).length =
      (records.filter (fun r => !recordExists existing r)).length
    ∧ ∀ (r : RecordSpec), recordExists existing r = false →
        (createCalls (recordLoop env project zoneName existing [r, r] [] 0).1).length = 2 := by
  constructor
  · exact recordLoop_create_count env project zoneName existing records h [] 0
  · intro r hr
    rw [recordLoop_create_count env project zoneName existing [r, r] h [] 0]
    simp [List.filter, hr]

/-- C10 witness: duplicate absent record — both occurrences trigger a
creation submission. -/
theorem C10_duplicates_witness :
    (createCalls (recordLoop (envOkEmpty ("p1")) ("p1") ("z1") [] [rA, rA] [] 0).1).length = 2 :=
  (C10_snapshot_fixed_duplicates_attempted (envOkEmpty ("p1")) ("p1") ("z1") [] [rA, rA]
      (fun m msg hx => CreateOutcome.noConfusion hx)).2 rA (by decide)
